import Mathlib

/-!
# Verification of the attribute-annotation macros in `cups/base.h`

Shallow embedding of the preprocessor logic of `cups/base.h`.  The ambient
preprocessor facts that the header inspects (`__has_extension`, `__GNUC__`
with its version, `_WIN32`, `__APPLE__`) form a `Toolchain`; the consumer
controlled defines (`_CUPS_SOURCE`, `_CUPS_NO_DEPRECATED`, `LIBCUPS2_EXPORTS`)
form a `BuildMode`.  Each `_CUPS_*` macro becomes a function from these inputs
to the fully macro-expanded token list that the preprocessor would leave in
the translation unit.  On `_WIN32` without `__has_extension` or `__GNUC__`
the header defines `__attribute__(...)` to expand to nothing (line 66), so
every attribute token is erased there; `emitAttr` models this.
-/

/-- Ambient toolchain and platform facts, as the preprocessor sees them:
`hasExtension` is `defined(__has_extension)` (Clang), `extDeprecatedMsg` and
`extUnavailableMsg` are the two `__has_extension(...)` queries on lines 46
and 49, `isGNUC` is `defined(__GNUC__)` with version `gnucMajor.gnucMinor`,
`isWin32` is `defined(_WIN32)`, `isApple` is `defined(__APPLE__)`. -/
structure Toolchain where
  hasExtension : Bool
  extDeprecatedMsg : Bool
  extUnavailableMsg : Bool
  isGNUC : Bool
  gnucMajor : Nat
  gnucMinor : Nat
  isWin32 : Bool
  isApple : Bool
  deriving DecidableEq

/-- Consumer-controlled build-mode defines: `_CUPS_SOURCE`,
`_CUPS_NO_DEPRECATED`, `LIBCUPS2_EXPORTS`. -/
structure BuildMode where
  cupsSource : Bool
  noDeprecated : Bool
  libcupsExports : Bool
  deriving DecidableEq

/-- The attribute payloads that `cups/base.h` ever places inside
`__attribute__ ((...))`. -/
inductive Attr where
  | deprecated
  | deprecatedMsg (m : String)
  | unavailable
  | unavailableMsg (m : String)
  | visibilityHidden
  | visibilityDefault
  | format (a b : Nat)
  | nonnull (args : List Nat)
  | noreturn
  deriving DecidableEq

/-- One token of a resolved expansion: either an `__attribute__ ((...))`
construct or the `__declspec(dllexport)` marker of line 81/82. -/
inductive Tok where
  | attr (a : Attr)
  | dllexport
  deriving DecidableEq

/-- Lines 41-67, `_CUPS_HAS_DEPRECATED`: defined in the Clang branch
unconditionally, in the GCC branch when `__GNUC__ >= 3`, otherwise not. -/
def hasDeprecated (t : Toolchain) : Bool :=
  if t.hasExtension then true
  else if t.isGNUC then decide (3 ≤ t.gnucMajor)
  else false

/-- Lines 41-67, `_CUPS_HAS_FORMAT`: same branches as `_CUPS_HAS_DEPRECATED`. -/
def hasFormat (t : Toolchain) : Bool :=
  if t.hasExtension then true
  else if t.isGNUC then decide (3 ≤ t.gnucMajor)
  else false

/-- Lines 41-67, `_CUPS_HAS_NORETURN`: same branches as `_CUPS_HAS_DEPRECATED`. -/
def hasNoReturn (t : Toolchain) : Bool :=
  if t.hasExtension then true
  else if t.isGNUC then decide (3 ≤ t.gnucMajor)
  else false

/-- Lines 41-67, `_CUPS_HAS_VISIBILITY`: same branches as `_CUPS_HAS_DEPRECATED`. -/
def hasVisibility (t : Toolchain) : Bool :=
  if t.hasExtension then true
  else if t.isGNUC then decide (3 ≤ t.gnucMajor)
  else false

/-- Lines 46-48 and 59-64, `_CUPS_HAS_DEPRECATED_WITH_MESSAGE`: the Clang
extension query, or GCC `__GNUC__ >= 5`, or `__GNUC__ == 4 && __GNUC_MINOR__ >= 5`. -/
def hasDeprecatedWithMessage (t : Toolchain) : Bool :=
  if t.hasExtension then t.extDeprecatedMsg
  else if t.isGNUC then decide (5 ≤ t.gnucMajor) || (decide (t.gnucMajor = 4) && decide (5 ≤ t.gnucMinor))
  else false

/-- Lines 49-51, `_CUPS_HAS_UNAVAILABLE_WITH_MESSAGE`: only the Clang
extension query defines it. -/
def hasUnavailableWithMessage (t : Toolchain) : Bool :=
  if t.hasExtension then t.extUnavailableMsg else false

/-- `_CUPS_HAS_NONNULL`: no branch of `cups/base.h` ever defines it
(it is only tested on line 163), so it is false for every toolchain. -/
def hasNonnull (_ : Toolchain) : Bool := false

/-- Line 66: on `_WIN32` with neither `__has_extension` nor `__GNUC__`,
`__attribute__(...)` is macro-defined to expand to nothing. -/
def attributeErased (t : Toolchain) : Bool :=
  !t.hasExtension && !t.isGNUC && t.isWin32

/-- The fully expanded text of a literal `__attribute__ ((a))` occurrence:
nothing when the line-66 erasing macro is in effect, the attribute otherwise. -/
def emitAttr (t : Toolchain) (a : Attr) : List Tok :=
  if attributeErased t then [] else [Tok.attr a]

/-- Lines 75-87, `_CUPS_PUBLIC`. -/
def cupsPublic (t : Toolchain) (b : BuildMode) : List Tok :=
  if hasVisibility t then emitAttr t Attr.visibilityDefault
  else if t.isWin32 && b.libcupsExports && false then [Tok.dllexport]
  else []

/-- Lines 75-87, `_CUPS_PRIVATE`. -/
def cupsPrivate (t : Toolchain) (b : BuildMode) : List Tok :=
  if hasVisibility t then emitAttr t Attr.visibilityDefault
  else if t.isWin32 && b.libcupsExports && false then [Tok.dllexport]
  else []

/-- Lines 75-87, `_CUPS_INTERNAL`. -/
def cupsInternal (t : Toolchain) (b : BuildMode) : List Tok :=
  if hasVisibility t then emitAttr t Attr.visibilityHidden
  else if t.isWin32 && b.libcupsExports && false then []
  else []

/-- Lines 99-126, `_CUPS_DEPRECATED`. -/
def cupsDeprecated (t : Toolchain) (b : BuildMode) : List Tok :=
  if !hasDeprecated t || (b.cupsSource && !b.noDeprecated) then
    cupsPublic t b
  else if t.isApple && b.noDeprecated then
    emitAttr t Attr.unavailable ++ cupsPublic t b
  else if t.isApple then
    emitAttr t Attr.deprecated ++ cupsPublic t b
  else if hasUnavailableWithMessage t && b.noDeprecated then
    emitAttr t Attr.unavailable ++ cupsPublic t b
  else
    emitAttr t Attr.deprecated ++ cupsPublic t b

/-- Lines 99-126, `_CUPS_DEPRECATED_MSG(m)`. -/
def cupsDeprecatedMsg (t : Toolchain) (b : BuildMode) (m : String) : List Tok :=
  if !hasDeprecated t || (b.cupsSource && !b.noDeprecated) then
    cupsPublic t b
  else if t.isApple && b.noDeprecated then
    emitAttr t (Attr.unavailableMsg m) ++ cupsPublic t b
  else if t.isApple then
    emitAttr t (Attr.deprecatedMsg m) ++ cupsPublic t b
  else if hasUnavailableWithMessage t && b.noDeprecated then
    emitAttr t (Attr.unavailableMsg m) ++ cupsPublic t b
  else if hasDeprecatedWithMessage t then
    emitAttr t (Attr.deprecatedMsg m) ++ cupsPublic t b
  else
    emitAttr t Attr.deprecated ++ cupsPublic t b

/-- Lines 147-155, `_CUPS_INTERNAL_MSG(m)`. -/
def cupsInternalMsg (t : Toolchain) (b : BuildMode) (m : String) : List Tok :=
  if b.cupsSource then cupsPublic t b
  else if hasUnavailableWithMessage t then emitAttr t (Attr.unavailableMsg m) ++ cupsPublic t b
  else if hasDeprecatedWithMessage t then emitAttr t (Attr.deprecatedMsg m) ++ cupsPublic t b
  else emitAttr t Attr.deprecated ++ cupsPublic t b

/-- Lines 133-137, `_CUPS_FORMAT(a,b)`. -/
def cupsFormat (t : Toolchain) (a b : Nat) : List Tok :=
  if hasFormat t then emitAttr t (Attr.format a b) else []

/-- Lines 163-167, `_CUPS_NONNULL(...)`. -/
def cupsNonnull (t : Toolchain) (args : List Nat) : List Tok :=
  if hasNonnull t then emitAttr t (Attr.nonnull args) else []

/-- Lines 174-178, `_CUPS_NORETURN`. -/
def cupsNoReturn (t : Toolchain) : List Tok :=
  if hasNoReturn t then emitAttr t Attr.noreturn else []

/-- A deprecation or unavailability construct, as the spec's invariants use
the phrase. -/
def isDepOrUnavail : Tok → Bool
  | Tok.attr Attr.deprecated => true
  | Tok.attr (Attr.deprecatedMsg _) => true
  | Tok.attr Attr.unavailable => true
  | Tok.attr (Attr.unavailableMsg _) => true
  | _ => false

/-- The unknown-toolchain profile: no Clang, no GCC, no Win32, no Apple. -/
def unknownProfile : Toolchain :=
  { hasExtension := false, extDeprecatedMsg := false, extUnavailableMsg := false,
    isGNUC := false, gnucMajor := 0, gnucMinor := 0, isWin32 := false, isApple := false }

/-- The platform-native Win32 profile: `_WIN32` defined, neither
`__has_extension` nor `__GNUC__`. -/
def win32Profile : Toolchain :=
  { hasExtension := false, extDeprecatedMsg := false, extUnavailableMsg := false,
    isGNUC := false, gnucMajor := 0, gnucMinor := 0, isWin32 := true, isApple := false }

/-- Apple Clang: `__has_extension` with both message extensions, on the
vendor-native platform. -/
def appleClang : Toolchain :=
  { hasExtension := true, extDeprecatedMsg := true, extUnavailableMsg := true,
    isGNUC := false, gnucMajor := 0, gnucMinor := 0, isWin32 := false, isApple := true }

/-- Non-Apple Clang with both message extensions. -/
def clangProfile : Toolchain :=
  { hasExtension := true, extDeprecatedMsg := true, extUnavailableMsg := true,
    isGNUC := false, gnucMajor := 0, gnucMinor := 0, isWin32 := false, isApple := false }

/-- A GCC profile with the given version, on no special platform. -/
def gnucProfile (maj mi : Nat) : Toolchain :=
  { hasExtension := false, extDeprecatedMsg := false, extUnavailableMsg := false,
    isGNUC := true, gnucMajor := maj, gnucMinor := mi, isWin32 := false, isApple := false }

/-- Apple platform with a GCC toolchain lacking the unavailable-with-message
capability. -/
def appleGcc : Toolchain :=
  { hasExtension := false, extDeprecatedMsg := false, extUnavailableMsg := false,
    isGNUC := true, gnucMajor := 5, gnucMinor := 0, isWin32 := false, isApple := true }

/-- No build-mode define set. -/
def mode0 : BuildMode :=
  { cupsSource := false, noDeprecated := false, libcupsExports := false }

/-- `_CUPS_SOURCE` and `_CUPS_NO_DEPRECATED` both set. -/
def modeSrcNoDep : BuildMode :=
  { cupsSource := true, noDeprecated := true, libcupsExports := false }

/-- Only `_CUPS_NO_DEPRECATED` set. -/
def modeNoDep : BuildMode :=
  { cupsSource := false, noDeprecated := true, libcupsExports := false }

/-- Only `LIBCUPS2_EXPORTS` set. -/
def modeExports : BuildMode :=
  { cupsSource := false, noDeprecated := false, libcupsExports := true }

/-- Only `_CUPS_SOURCE` set. -/
def modeSrc : BuildMode :=
  { cupsSource := true, noDeprecated := false, libcupsExports := false }

theorem hasDeprecated_not_erased (t : Toolchain) (h : hasDeprecated t = true) :
    attributeErased t = false := by
  unfold hasDeprecated at h
  unfold attributeErased
  by_cases h1 : t.hasExtension <;> by_cases h2 : t.isGNUC <;> simp_all

theorem hasFormat_not_erased (t : Toolchain) (h : hasFormat t = true) :
    attributeErased t = false := by
  unfold hasFormat at h
  unfold attributeErased
  by_cases h1 : t.hasExtension <;> by_cases h2 : t.isGNUC <;> simp_all

theorem cupsPublic_no_dep (t : Toolchain) (b : BuildMode) :
    (cupsPublic t b).all (fun x => !isDepOrUnavail x) = true := by
  unfold cupsPublic emitAttr
  split_ifs <;> simp [isDepOrUnavail]

/-- C1 counterexample: on the unknown toolchain (where `supportsDeprecated` is
false) and outside `_CUPS_SOURCE`, `_CUPS_INTERNAL_MSG` still expands to the
`__attribute__ ((deprecated))` construct, so it neither is free of
deprecation constructs nor reduces to the Public marker alone. -/
theorem internal_msg_emits_deprecated_when_unsupported :
    hasDeprecated unknownProfile = false ∧
    (cupsInternalMsg unknownProfile mode0 "use X").any isDepOrUnavail = true ∧
    cupsInternalMsg unknownProfile mode0 "use X" ≠ cupsPublic unknownProfile mode0 := by
  decide

/-- C1 (amended): for every toolchain profile in which `supportsDeprecated` is
false, the resolved expansions of `_CUPS_DEPRECATED` and `_CUPS_DEPRECATED_MSG`
contain no deprecation or unavailability construct and reduce to the Public
marker alone; `_CUPS_INTERNAL_MSG` is excluded from the invariant. -/
theorem deprecated_reduces_to_public_when_unsupported (t : Toolchain) (b : BuildMode)
    (m : String) (h : hasDeprecated t = false) :
    cupsDeprecated t b = cupsPublic t b ∧
    cupsDeprecatedMsg t b m = cupsPublic t b ∧
    (cupsDeprecated t b).all (fun x => !isDepOrUnavail x) = true ∧
    (cupsDeprecatedMsg t b m).all (fun x => !isDepOrUnavail x) = true := by
  have h1 : cupsDeprecated t b = cupsPublic t b := by
    unfold cupsDeprecated; simp [h]
  have h2 : cupsDeprecatedMsg t b m = cupsPublic t b := by
    unfold cupsDeprecatedMsg; simp [h]
  exact ⟨h1, h2, h1 ▸ cupsPublic_no_dep t b, h2 ▸ cupsPublic_no_dep t b⟩

/-- C1 witness: the amended invariant at the unknown toolchain. -/
theorem deprecated_reduces_to_public_when_unsupported_witness :
    hasDeprecated unknownProfile = false ∧
    cupsDeprecated unknownProfile mode0 = cupsPublic unknownProfile mode0 ∧
    cupsDeprecatedMsg unknownProfile mode0 "use X" = cupsPublic unknownProfile mode0 :=
  ⟨rfl, (deprecated_reduces_to_public_when_unsupported unknownProfile mode0 "use X" rfl).1,
    (deprecated_reduces_to_public_when_unsupported unknownProfile mode0 "use X" rfl).2.1⟩

/-- C2 counterexample: with `_CUPS_SOURCE` and `_CUPS_NO_DEPRECATED` both set
on a deprecation-capable toolchain, `_CUPS_DEPRECATED` does not resolve to the
Public marker only. -/
theorem source_with_no_deprecated_not_public :
    modeSrcNoDep.cupsSource = true ∧
    cupsDeprecated appleClang modeSrcNoDep ≠ cupsPublic appleClang modeSrcNoDep := by
  decide

/-- C2 (amended): when `_CUPS_SOURCE` is set, `_CUPS_INTERNAL_MSG` always
resolves to the Public marker only; `_CUPS_DEPRECATED` and
`_CUPS_DEPRECATED_MSG` resolve to the Public marker only when
`_CUPS_NO_DEPRECATED` is not also set. -/
theorem source_mode_resolution (t : Toolchain) (b : BuildMode) (m : String)
    (hs : b.cupsSource = true) :
    cupsInternalMsg t b m = cupsPublic t b ∧
    (b.noDeprecated = false →
      cupsDeprecated t b = cupsPublic t b ∧ cupsDeprecatedMsg t b m = cupsPublic t b) := by
  refine ⟨?_, fun hn => ⟨?_, ?_⟩⟩
  · unfold cupsInternalMsg; simp [hs]
  · unfold cupsDeprecated; simp [hs, hn]
  · unfold cupsDeprecatedMsg; simp [hs, hn]

/-- C2 witness: the amended resolution at Clang with only `_CUPS_SOURCE` set. -/
theorem source_mode_resolution_witness :
    modeSrc.cupsSource = true ∧
    cupsInternalMsg clangProfile modeSrc "use X" = cupsPublic clangProfile modeSrc ∧
    cupsDeprecated clangProfile modeSrc = cupsPublic clangProfile modeSrc :=
  ⟨rfl, (source_mode_resolution clangProfile modeSrc "use X" rfl).1,
    ((source_mode_resolution clangProfile modeSrc "use X" rfl).2 rfl).1⟩

/-- C3 counterexample: on Win32 without attribute support and with
`LIBCUPS2_EXPORTS` set, neither `_CUPS_PUBLIC` nor `_CUPS_PRIVATE` resolves to
the `__declspec(dllexport)` marker. -/
theorem exports_does_not_emit_dllexport :
    modeExports.libcupsExports = true ∧
    cupsPublic win32Profile modeExports ≠ [Tok.dllexport] ∧
    cupsPrivate win32Profile modeExports ≠ [Tok.dllexport] := by
  decide

/-- C3 (amended): the export-table branch of lines 79-82 carries a
constant-false conjunct, so on Win32 without attribute support the Public and
Private directives resolve to the empty expansion even when `LIBCUPS2_EXPORTS`
is set. -/
theorem win32_export_branch_disabled (b : BuildMode) (he : b.libcupsExports = true) :
    cupsPublic win32Profile b = [] ∧ cupsPrivate win32Profile b = [] := by
  refine ⟨?_, ?_⟩ <;> simp [cupsPublic, cupsPrivate, hasVisibility, win32Profile]

/-- C3 witness: the amended resolution with `LIBCUPS2_EXPORTS` set. -/
theorem win32_export_branch_disabled_witness :
    modeExports.libcupsExports = true ∧
    cupsPublic win32Profile modeExports = [] ∧
    cupsPrivate win32Profile modeExports = [] :=
  ⟨rfl, (win32_export_branch_disabled modeExports rfl).1,
    (win32_export_branch_disabled modeExports rfl).2⟩

/-- C4 counterexample: on Apple Clang with `_CUPS_NO_DEPRECATED` set (and not
building own source), `_CUPS_DEPRECATED` expands to the unavailable-marker
plus Public — neither the Public marker alone nor the deprecated-marker plus
Public that the claim allows. -/
theorem deprecated_no_msg_unavailable_case :
    hasDeprecated appleClang = true ∧
    ¬(modeNoDep.cupsSource = true ∧ modeNoDep.noDeprecated = false) ∧
    cupsDeprecated appleClang modeNoDep ≠ cupsPublic appleClang modeNoDep ∧
    cupsDeprecated appleClang modeNoDep ≠
      Tok.attr Attr.deprecated :: cupsPublic appleClang modeNoDep ∧
    cupsDeprecated appleClang modeNoDep =
      Tok.attr Attr.unavailable :: cupsPublic appleClang modeNoDep := by
  decide

/-- C4 (amended): `_CUPS_DEPRECATED` resolves to the Public marker alone when
`supportsDeprecated` is false or own-source is set without exclude-deprecated;
otherwise it is the unavailable-marker plus Public when exclude-deprecated is
set on a vendor-native platform or with the unavailable-with-message
capability, and the deprecated-marker plus Public in every remaining case. -/
theorem deprecated_no_msg_cases (t : Toolchain) (b : BuildMode) :
    (hasDeprecated t = false ∨ (b.cupsSource = true ∧ b.noDeprecated = false) →
      cupsDeprecated t b = cupsPublic t b) ∧
    (hasDeprecated t = true → b.cupsSource = false ∨ b.noDeprecated = true →
      cupsDeprecated t b =
        (if (t.isApple || hasUnavailableWithMessage t) && b.noDeprecated then
          Tok.attr Attr.unavailable
         else Tok.attr Attr.deprecated) :: cupsPublic t b) := by
  constructor
  · rintro (h | ⟨hs, hn⟩)
    · unfold cupsDeprecated; simp [h]
    · unfold cupsDeprecated; simp [hs, hn]
  · intro hd hsn
    have he := hasDeprecated_not_erased t hd
    have h1 : (!hasDeprecated t || (b.cupsSource && !b.noDeprecated)) = false := by
      rcases hsn with h | h <;> simp [hd, h]
    unfold cupsDeprecated emitAttr
    rw [h1]
    by_cases ha : t.isApple = true <;> by_cases hn : b.noDeprecated = true <;>
      by_cases hu : hasUnavailableWithMessage t = true <;> simp_all

/-- C4 witness: the amended case split at GCC 7 with no switches. -/
theorem deprecated_no_msg_cases_witness :
    cupsDeprecated (gnucProfile 7 0) mode0 =
      (if ((gnucProfile 7 0).isApple || hasUnavailableWithMessage (gnucProfile 7 0))
          && mode0.noDeprecated then
        Tok.attr Attr.unavailable
       else Tok.attr Attr.deprecated) :: cupsPublic (gnucProfile 7 0) mode0 :=
  (deprecated_no_msg_cases (gnucProfile 7 0) mode0).2 (by decide) (Or.inl rfl)

/-- C5: with `__APPLE__` and `_CUPS_NO_DEPRECATED` both set, `supportsDeprecated`
true and own-source not in effect, `_CUPS_DEPRECATED_MSG(m)` expands to the
unavailable-marker carrying `m` followed by the Public marker — independent
of the generic unavailable-with-message capability, since the vendor-native
branch is checked first. -/
theorem apple_no_deprecated_msg_unavailable (t : Toolchain) (b : BuildMode) (m : String)
    (ha : t.isApple = true) (hn : b.noDeprecated = true)
    (hd : hasDeprecated t = true) (hs : b.cupsSource = false) :
    cupsDeprecatedMsg t b m = Tok.attr (Attr.unavailableMsg m) :: cupsPublic t b := by
  have he := hasDeprecated_not_erased t hd
  unfold cupsDeprecatedMsg emitAttr
  simp [ha, hn, hd, hs, he]

/-- C5 witness: Apple platform with a GCC toolchain, where the generic
unavailable-with-message capability is absent, so only the vendor-native
branch can produce the unavailable-marker. -/
theorem apple_no_deprecated_msg_unavailable_witness :
    appleGcc.isApple = true ∧ modeNoDep.noDeprecated = true ∧
    hasDeprecated appleGcc = true ∧ modeNoDep.cupsSource = false ∧
    hasUnavailableWithMessage appleGcc = false ∧
    cupsDeprecatedMsg appleGcc modeNoDep "use X" =
      Tok.attr (Attr.unavailableMsg "use X") :: cupsPublic appleGcc modeNoDep :=
  ⟨rfl, rfl, by decide, rfl, by decide,
    apple_no_deprecated_msg_unavailable appleGcc modeNoDep "use X" rfl rfl (by decide) rfl⟩

/-- C6: for the GCC family, the four base capability flags hold exactly when
the major version is at least 3, and deprecated-with-message exactly when
major ≥ 5 or (major = 4 and minor ≥ 5); consequently GCC 4.3 (not
vendor-native, not building own source) resolves `_CUPS_DEPRECATED_MSG(m)` to
the plain deprecated-marker without the message, followed by the Public
marker. -/
theorem gnuc_flags_and_4_3 (maj mi : Nat) (b : BuildMode) (m : String) :
    hasDeprecated (gnucProfile maj mi) = decide (3 ≤ maj) ∧
    hasFormat (gnucProfile maj mi) = decide (3 ≤ maj) ∧
    hasNoReturn (gnucProfile maj mi) = decide (3 ≤ maj) ∧
    hasVisibility (gnucProfile maj mi) = decide (3 ≤ maj) ∧
    hasDeprecatedWithMessage (gnucProfile maj mi) =
      (decide (5 ≤ maj) || (decide (maj = 4) && decide (5 ≤ mi))) ∧
    (b.cupsSource = false →
      cupsDeprecatedMsg (gnucProfile 4 3) b m =
        Tok.attr Attr.deprecated :: cupsPublic (gnucProfile 4 3) b) := by
  refine ⟨rfl, rfl, rfl, rfl, rfl, fun hs => ?_⟩
  unfold cupsDeprecatedMsg emitAttr
  simp [hs, hasDeprecated, hasUnavailableWithMessage, hasDeprecatedWithMessage,
    attributeErased, gnucProfile]

/-- C6 witness: the GCC 4.3 scenario with no build-mode defines. -/
theorem gnuc_flags_and_4_3_witness :
    mode0.cupsSource = false ∧
    cupsDeprecatedMsg (gnucProfile 4 3) mode0 "use X" =
      Tok.attr Attr.deprecated :: cupsPublic (gnucProfile 4 3) mode0 :=
  ⟨rfl, (gnuc_flags_and_4_3 4 3 mode0 "use X").2.2.2.2.2 rfl⟩

/-- C7: for every toolchain profile and build mode the `_CUPS_PRIVATE` and
`_CUPS_PUBLIC` expansions are identical, while `_CUPS_INTERNAL` can differ
from them. -/
theorem private_public_indistinguishable :
    (∀ (t : Toolchain) (b : BuildMode), cupsPrivate t b = cupsPublic t b) ∧
    cupsInternal clangProfile mode0 ≠ cupsPublic clangProfile mode0 :=
  ⟨fun _ _ => rfl, by decide⟩

/-- C8: `_CUPS_FORMAT(a,b)` expands to the printf-convention format attribute
with the given indices exactly when `supportsFormatCheck` holds, and to
nothing otherwise — in particular to nothing on the unknown toolchain. -/
theorem format_resolution (t : Toolchain) (a b : Nat) :
    (cupsFormat t a b = if hasFormat t then [Tok.attr (Attr.format a b)] else []) ∧
    cupsFormat unknownProfile a b = [] := by
  constructor
  · unfold cupsFormat emitAttr
    by_cases h : hasFormat t = true
    · simp [h, hasFormat_not_erased t h]
    · simp [h]
  · rfl

/-- C9: no branch of the capability detector defines `_CUPS_HAS_NONNULL`, so
`_CUPS_NONNULL` resolves to the empty expansion for every toolchain and every
argument-index list. -/
theorem nonnull_always_empty (t : Toolchain) (args : List Nat) :
    hasNonnull t = false ∧ cupsNonnull t args = [] :=
  ⟨rfl, rfl⟩

/-- C10: on the platform-native Win32 toolchain the `__attribute__` keyword is
erased, so the Internal, Private and Public markers are empty and every
attribute-bearing expansion — including the deprecated-marker fallback of
`_CUPS_INTERNAL_MSG` — collapses to empty text, for every build mode. -/
theorem win32_attribute_erasure (b : BuildMode) (m : String) :
    attributeErased win32Profile = true ∧
    cupsInternal win32Profile b = [] ∧
    cupsPrivate win32Profile b = [] ∧
    cupsPublic win32Profile b = [] ∧
    cupsInternalMsg win32Profile b m = [] ∧
    cupsDeprecated win32Profile b = [] ∧
    cupsDeprecatedMsg win32Profile b m = [] := by
  obtain ⟨s, n, e⟩ := b
  cases s <;> cases n <;> cases e <;> exact ⟨rfl, rfl, rfl, rfl, rfl, rfl, rfl⟩
